import Mathlib

/-!
Verification development for the review-management core
(review ingestion, reply orchestration, policy filter, metrics rollup).

The definitions below are shallow embeddings of the TypeScript source:
- src/app/api/replies/route.ts       (reply orchestrator: generate / approve / send)
- src/app/api/jobs/ingest/route.ts   (ingestion reconciler)
- src/app/api/jobs/metrics/route.ts  (metrics rollup)
- src/lib/ai.ts                      (policy filter with its module-level regexes)

Timestamps are modelled as integers (milliseconds), database rows as Lean
structures, thrown JS exceptions as Except, and JS string truthiness
explicitly.  Numeric averages are computed in the rationals.
-/

/- ## Reply orchestrator (src/app/api/replies/route.ts) -/

/-- ReplyStatus enum of the Reply row (DRAFT, APPROVED, SENT, FAILED). -/
inductive ReplyStatus
  | DRAFT
  | APPROVED
  | SENT
  | FAILED
deriving DecidableEq, Repr

/-- ReviewStatus enum of the Review row. -/
inductive ReviewStatus
  | NEEDS_REPLY
  | AUTO_SENT
  | FLAGGED
  | RESOLVED
deriving DecidableEq, Repr

/-- The Reply row fields read and written by the orchestrator.  Optional
columns are Option; sentAt is a millisecond timestamp. -/
structure Reply where
  draftText : String
  finalText : Option String
  status : ReplyStatus
  sentById : Option String
  sentAt : Option Int
deriving DecidableEq, Repr

/-- JS truthiness of a possibly-undefined string: undefined and the empty
string are falsy, every other string is truthy. -/
def strTruthy : Option String → Bool
  | none => false
  | some s => s != ""

/-- JS logical-or restricted to string operands: returns the first operand
when it is truthy, otherwise the second operand. -/
def jsOrStr (a b : Option String) : Option String :=
  if strTruthy a then a else b

/-- Resolution of the text to send, line 191 of replies/route.ts:
data.finalText var-or reply.draftText var-or reply.finalText. -/
def resolveSendText (callerFinal : Option String) (r : Reply) : Option String :=
  jsOrStr callerFinal (jsOrStr (some r.draftText) r.finalText)

/-- Outcome of the adapter.postReply call made inside send (replies/route.ts
lines 206-210): the promise resolves true, resolves false, or rejects. -/
inductive AdapterOutcome
  | success
  | returnedFalse
  | threw
deriving DecidableEq, Repr

/-- HTTP-level outcome of updateReplyAction. -/
inductive UpdateOutcome
  | approvedOk
  | sentOk
  | noText
  | sendFailed
  | invalidAction
deriving DecidableEq, Repr

/-- Observable effect of one updateReplyAction call: the response outcome, the
reply row after the call, whether the parent review row was set to AUTO_SENT,
and the text handed to adapter.postReply (none when the adapter was not
invoked). -/
structure UpdateEffect where
  outcome : UpdateOutcome
  reply : Reply
  reviewSetAutoSent : Bool
  postedText : Option String
deriving DecidableEq, Repr

/-- updateReplyAction, replies/route.ts lines 138-276, for a reply row the
caller owns.  The approve branch (lines 170-188) writes
finalText := data.finalText var-or draftText and status := APPROVED with no
check of the current status.  The send branch (lines 189-273) resolves the
text (line 191), returns 400 when it is falsy (lines 193-195), then calls the
adapter inside try/catch: on true it writes finalText, SENT, sentById, sentAt
and sets the review to AUTO_SENT (lines 212-238); on false or on a thrown
error it writes status := FAILED only (lines 239-272).  No branch inspects
the reply's current status. -/
def updateReplyAction (act : String) (callerFinal : Option String) (r : Reply)
    (adapter : AdapterOutcome) (userId : String) (now : Int) : UpdateEffect :=
  if act = "approve" then
    { outcome := .approvedOk
      reply := { r with finalText := jsOrStr callerFinal (some r.draftText)
                        status := .APPROVED }
      reviewSetAutoSent := false
      postedText := none }
  else if act = "send" then
    let ft := resolveSendText callerFinal r
    if strTruthy ft then
      match adapter with
      | .success =>
          { outcome := .sentOk
            reply := { r with finalText := ft
                              status := .SENT
                              sentById := some userId
                              sentAt := some now }
            reviewSetAutoSent := true
            postedText := ft }
      | .returnedFalse =>
          { outcome := .sendFailed
            reply := { r with status := .FAILED }
            reviewSetAutoSent := false
            postedText := ft }
      | .threw =>
          { outcome := .sendFailed
            reply := { r with status := .FAILED }
            reviewSetAutoSent := false
            postedText := ft }
    else
      { outcome := .noText, reply := r, reviewSetAutoSent := false, postedText := none }
  else
    { outcome := .invalidAction, reply := r, reviewSetAutoSent := false, postedText := none }

/-- The Reply row persisted by the generate step, replies/route.ts lines
108-115: draftText from the AI response, status DRAFT (the flagged ternary on
line 113 yields DRAFT in both branches), all other columns unset. -/
def generatedReply (aiDraft : String) : Reply :=
  { draftText := aiDraft, finalText := none, status := .DRAFT
    sentById := none, sentAt := none }

/-- Response of generateReplyAction, replies/route.ts lines 60-136. -/
inductive GenerateResponse
  | reviewNotFound
  | replyAlreadyExists
  | created (r : Reply)
deriving DecidableEq, Repr

/-- generateReplyAction, replies/route.ts lines 60-136, with the relevant
store observations as parameters: whether the ownership-scoped review lookup
found a row (lines 64-84), whether the pre-insert reply lookup found a row
(lines 87-96), and whether the prisma.reply.create call (lines 108-115)
raises a uniqueness-constraint violation on reviewId.  A raised storage error
is not caught inside this function, so it is an Except.error here. -/
def generateReplyAction (reviewFound existingReplyAtCheck insertUniqueViolation : Bool)
    (aiDraft : String) : Except String GenerateResponse :=
  if !reviewFound then .ok .reviewNotFound
  else if existingReplyAtCheck then .ok .replyAlreadyExists
  else if insertUniqueViolation then .error "Unique constraint violation on Reply.reviewId"
  else .ok (.created (generatedReply aiDraft))

/-- HTTP status produced by POST for a generate action, replies/route.ts
lines 24-58: the ok outcomes map to 404 / 409 / 200 inside
generateReplyAction itself; any error thrown out of it reaches the outer
catch (lines 51-57) and becomes a generic 500. -/
def postGenerateStatus (reviewFound existingReplyAtCheck insertUniqueViolation : Bool)
    (aiDraft : String) : Nat :=
  match generateReplyAction reviewFound existingReplyAtCheck insertUniqueViolation aiDraft with
  | .ok .reviewNotFound => 404
  | .ok .replyAlreadyExists => 409
  | .ok (.created _) => 200
  | .error _ => 500

/-- One orchestrator operation on an existing reply row.  The zod schema
(lines 18-22) admits exactly the actions approve and send, so these are the
two operations that reach updateReplyAction. -/
inductive ReplyOp
  | approve (callerFinal : Option String)
  | send (callerFinal : Option String) (adapter : AdapterOutcome) (userId : String) (now : Int)
deriving DecidableEq, Repr

/-- Effect of one operation on the reply row, as written by
updateReplyAction. -/
def replyStep (r : Reply) : ReplyOp → Reply
  | .approve callerFinal => (updateReplyAction "approve" callerFinal r .success "" 0).reply
  | .send callerFinal adapter userId now =>
      (updateReplyAction "send" callerFinal r adapter userId now).reply

/-- The reply row after a sequence of orchestrator operations. -/
def runOps (r : Reply) : List ReplyOp → Reply
  | [] => r
  | op :: ops => runOps (replyStep r op) ops

/-- A reply row in status SENT, as produced by a successful send. -/
def rSentExample : Reply :=
  { draftText := "Thank you!", finalText := some "Thank you!", status := .SENT
    sentById := some "user-1", sentAt := some 1000 }

/-- A reply row in status APPROVED whose approved finalText differs from its
draftText (the caller supplied an edited text at approve time). -/
def rApprovedExample : Reply :=
  { draftText := "draft text", finalText := some "approved text", status := .APPROVED
    sentById := none, sentAt := none }

/-- A freshly generated reply row in status DRAFT. -/
def rDraftExample : Reply :=
  { draftText := "We are sorry to hear that.", finalText := none, status := .DRAFT
    sentById := none, sentAt := none }

/- ## Ingestion reconciler (src/app/api/jobs/ingest/route.ts) -/

/-- Platform enum of the Review row. -/
inductive ReviewPlatform
  | GOOGLE
  | YELP
  | FACEBOOK
  | TRIPADVISOR
deriving DecidableEq, Repr

/-- One item of the adapter's readReviews result (ReviewData in
src/lib/platforms/index.ts): authorName, authorAvatar and url are optional.
createdAt is the platform-reported timestamp in milliseconds. -/
structure ReviewDraft where
  platformId : String
  stars : Nat
  text : String
  authorName : Option String
  authorAvatar : Option String
  url : Option String
  createdAt : Int
deriving DecidableEq, Repr

/-- A Review row of the store with the columns the ingestion job reads and
writes.  platformId carries a unique constraint in the schema: the job looks
rows up with findUnique on platformId alone (ingest/route.ts line 56). -/
structure ReviewRow where
  locationId : String
  platform : ReviewPlatform
  platformId : String
  stars : Nat
  text : String
  authorName : Option String
  authorAvatar : Option String
  url : Option String
  status : ReviewStatus
  createdAt : Int
  updatedAt : Int
deriving DecidableEq, Repr

/-- Prisma update semantics for an optional field: a value that is undefined
in the data object (modelled none) leaves the stored column unchanged, a
present value overwrites it. -/
def prismaSet (newVal oldVal : Option String) : Option String :=
  match newVal with
  | some v => some v
  | none => oldVal

/-- The prisma.review.update call of the re-sync branch, ingest/route.ts
lines 62-72: it writes stars, text, authorName, authorAvatar, url and
updatedAt and mentions no other column. -/
def applySync (r : ReviewRow) (d : ReviewDraft) (now : Int) : ReviewRow :=
  { r with
    stars := d.stars
    text := d.text
    authorName := prismaSet d.authorName r.authorName
    authorAvatar := prismaSet d.authorAvatar r.authorAvatar
    url := prismaSet d.url r.url
    updatedAt := now }

/-- The prisma.review.create call of the first-sight branch, ingest/route.ts
lines 75-88.  The create data does not mention status; the schema column
default applies.  Modelled from the spec: the Prisma schema file is not among
the captured sources, and the spec states that an absent review is inserted
with status NEEDS_REPLY. -/
def createRow (locId : String) (pf : ReviewPlatform) (d : ReviewDraft) (now : Int) : ReviewRow :=
  { locationId := locId, platform := pf, platformId := d.platformId
    stars := d.stars, text := d.text
    authorName := d.authorName, authorAvatar := d.authorAvatar, url := d.url
    status := .NEEDS_REPLY, createdAt := d.createdAt, updatedAt := now }

/-- Processing of one ReviewDraft against the review store, ingest/route.ts
lines 53-90: findUnique by platformId alone; when a row is found, update it
in place (the update is keyed by the same unique platformId); otherwise
insert a new row for the location and platform being ingested. -/
def ingestReview (store : List ReviewRow) (locId : String) (pf : ReviewPlatform)
    (d : ReviewDraft) (now : Int) : List ReviewRow :=
  match store.find? (fun r => r.platformId == d.platformId) with
  | some _ =>
      store.map (fun r => if r.platformId == d.platformId then applySync r d now else r)
  | none => store ++ [createRow locId pf d now]

/-- Number of store rows carrying a given platformId. -/
def countByPlatformId (store : List ReviewRow) (pid : String) : Nat :=
  (store.filter (fun r => r.platformId == pid)).length

/-- A concrete draft used by witnesses. -/
def dExample : ReviewDraft :=
  { platformId := "g-123", stars := 5, text := "Great!"
    authorName := some "Ana", authorAvatar := none, url := some "https://g/r/123"
    createdAt := 1000 }

/-- A second draft for the same platformId with different mutable fields. -/
def dExample2 : ReviewDraft :=
  { platformId := "g-123", stars := 2, text := "Edited my review."
    authorName := some "Ana", authorAvatar := none, url := some "https://g/r/123"
    createdAt := 1000 }

/-- A store row for dExample's platformId owned by a different platform. -/
def rowYelpExample : ReviewRow :=
  { locationId := "loc-1", platform := .YELP, platformId := "g-123"
    stars := 4, text := "old text", authorName := none, authorAvatar := none
    url := none, status := .RESOLVED, createdAt := 500, updatedAt := 600 }

/- ## Metrics rollup (src/app/api/jobs/metrics/route.ts) -/

/-- A reply as read by the metrics job: its status and sentAt timestamp. -/
structure MetricsReply where
  status : ReplyStatus
  sentAt : Option Int
deriving DecidableEq, Repr

/-- A review as read by the metrics job, with its optional reply. -/
structure MetricsReview where
  stars : Nat
  createdAt : Int
  reply : Option MetricsReply
deriving DecidableEq, Repr

/-- One business's snapshot values as upserted under the key
(businessId, today), metrics/route.ts lines 69-90. -/
structure MetricsSnapshot where
  totalReviews : Nat
  avgRating : ℚ
  coverage : ℚ
  avgResponseTime : ℚ
deriving DecidableEq, Repr

/-- Whether a review carries a reply in status SENT, the condition
r.reply?.status === SENT of metrics/route.ts line 51. -/
def hasSentReply (r : MetricsReview) : Bool :=
  match r.reply with
  | some rep => rep.status == .SENT
  | none => false

/-- The response-time entry the code builds for one review, metrics/route.ts
lines 56-61: sentAt minus createdAt when sentAt is present, otherwise null. -/
def responseTimeEntry (r : MetricsReview) : Option Int :=
  match r.reply with
  | some rep =>
      match rep.sentAt with
      | some t => some (t - r.createdAt)
      | none => none
  | none => none

/-- The filter(Boolean) of metrics/route.ts line 62 on the entry list: it
drops null entries and also drops an entry equal to 0, because the number 0
is falsy in JS. -/
def keptResponseTime (o : Option Int) : Option Int :=
  match o with
  | some x => if x == 0 then none else some x
  | none => none

/-- The per-business aggregation of metrics/route.ts lines 46-66 over the
review set the query handed in, with the divisions carried out in the
rationals: totalReviews, avgRating (0 when empty), coverage in percent
(0 when empty), avgResponseTime in hours over the kept response times
(0 when none). -/
def computeMetrics (rs : List MetricsReview) : MetricsSnapshot :=
  let total := rs.length
  let starSum : ℚ := rs.foldl (fun acc r => acc + (r.stars : ℚ)) 0
  let avgRating : ℚ := if total > 0 then starSum / (total : ℚ) else 0
  let withSent := rs.filter hasSentReply
  let coverage : ℚ := if total > 0 then ((withSent.length : ℚ) / (total : ℚ)) * 100 else 0
  let responseTimes := (withSent.map responseTimeEntry).filterMap keptResponseTime
  let timeSum : ℚ := responseTimes.foldl (fun acc t => acc + (t : ℚ)) 0
  let avgResponseTime : ℚ :=
    if responseTimes.length > 0 then
      timeSum / (responseTimes.length : ℚ) / (1000 * 60 * 60)
    else 0
  { totalReviews := total, avgRating := avgRating
    coverage := coverage, avgResponseTime := avgResponseTime }

/-- The review set the metrics query selects for a business, metrics
route lines 16-33: every review of the business's locations whose createdAt
is at or after the first day of the current month (the gte bound built on
line 23). -/
def monthReviews (reviews : List MetricsReview) (monthStart : Int) : List MetricsReview :=
  reviews.filter (fun r => decide (monthStart ≤ r.createdAt))

/-- The snapshot the metrics job computes and upserts for one business under
the key (businessId, today): the aggregation applied to the month-to-date
review set. -/
def metricsJobBusiness (reviews : List MetricsReview) (monthStart : Int) : MetricsSnapshot :=
  computeMetrics (monthReviews reviews monthStart)

/-- Review set selected by the claim's words, stated for comparison with the
code's selection: exactly the reviews created on the current calendar day,
the day being the half-open interval from dayStart to dayEnd. -/
def dayReviewsSpec (reviews : List MetricsReview) (dayStart dayEnd : Int) : List MetricsReview :=
  reviews.filter (fun r => decide (dayStart ≤ r.createdAt ∧ r.createdAt < dayEnd))

/-- A review created on the first day of the month, with no reply. -/
def revFirstOfMonth : MetricsReview :=
  { stars := 5, createdAt := 0, reply := none }

/-- The spec's worked metrics example: four reviews with ratings 5, 3, 1, 4,
two of which carry SENT replies. -/
def ms4Example : List MetricsReview :=
  [{ stars := 5, createdAt := 100, reply := some { status := .SENT, sentAt := some 7300100 } },
   { stars := 3, createdAt := 200, reply := none },
   { stars := 1, createdAt := 300, reply := some { status := .SENT, sentAt := some 3600300 } },
   { stars := 4, createdAt := 400, reply := some { status := .DRAFT, sentAt := none } }]

/- ## Policy filter (src/lib/ai.ts)

The four PII patterns of lib/ai.ts lines 113-118 are RegExp literals with the
g flag, created once at module load.  RegExp.prototype.test on a g-flagged
regex is stateful: a successful test advances the regex object's lastIndex to
the end of the match, and the next test starts searching there; a failed test
resets lastIndex to 0.  The engine below implements the element forms those
four patterns use (word boundary, character class with a counted or unbounded
greedy quantifier) with leftmost search and greedy backtracking, plus that
lastIndex protocol. -/

/-- One element of a regex pattern: a word-boundary assertion, or a character
class repeated greedily between mn and mx times (mx none meaning unbounded). -/
inductive RegexElem
  | boundary
  | cls (p : Char → Bool) (mn : Nat) (mx : Option Nat)

/-- Length of the maximal run of class characters at the head of the list. -/
def classRun (p : Char → Bool) : List Char → Nat
  | [] => 0
  | c :: cs => if p c then classRun p cs + 1 else 0

/-- JS word character for the boundary assertion: ASCII letter, digit or
underscore. -/
def isWordChar (c : Char) : Bool :=
  ('a' ≤ c && c ≤ 'z') || ('A' ≤ c && c ≤ 'Z') || ('0' ≤ c && c ≤ '9') || c == '_'

/-- Whether position i of the text holds a word character (out of range
counts as non-word). -/
def wordAt (full : List Char) (i : Nat) : Bool :=
  isWordChar (full.getD i ' ')

/-- Word-boundary assertion at position i: the word-ness of the character
before i differs from the word-ness of the character at i. -/
def boundaryAt (full : List Char) (i : Nat) : Bool :=
  (if i = 0 then false else wordAt full (i - 1)) != wordAt full i

/-- Greedy backtracking match of the element list against the text starting
at position i, returning the end position of a match when one exists.  A
class element first takes as many characters as allowed, then backs off one
at a time down to its minimum.  The fuel argument only drives structural
recursion; one unit is spent per element, so fuel equal to the element count
never runs out. -/
def matchElemsF : Nat → List Char → List RegexElem → Nat → Option Nat
  | _, _, [], i => some i
  | 0, _, _ :: _, _ => none
  | fuel + 1, full, .boundary :: rest, i =>
      if boundaryAt full i then matchElemsF fuel full rest i else none
  | fuel + 1, full, .cls p mn mx :: rest, i =>
      let runLen := classRun p (full.drop i)
      let hi := match mx with
        | none => runLen
        | some m => Nat.min m runLen
      if hi < mn then none
      else
        ((List.range (hi + 1 - mn)).map (fun k => hi - k)).findSome?
          (fun j => matchElemsF fuel full rest (i + j))

/-- Match of a whole pattern at a fixed start position. -/
def matchElems (full : List Char) (pat : List RegexElem) (i : Nat) : Option Nat :=
  matchElemsF pat.length full pat i

/-- Leftmost search: the end position of the first match whose start is at or
after the given position. -/
def searchFrom (pat : List RegexElem) (full : List Char) (start : Nat) : Option Nat :=
  ((List.range (full.length + 1 - start)).map (fun k => start + k)).findSome?
    (fun s => matchElems full pat s)

/-- RegExp.prototype.test on a g-flagged regex object: search from the
stored lastIndex; on a match return true with lastIndex moved to the match
end, otherwise return false with lastIndex reset to 0 (also when lastIndex
already lies beyond the text). -/
def jsTestG (pat : List RegexElem) (text : List Char) (lastIndex : Nat) : Bool × Nat :=
  if text.length < lastIndex then (false, 0)
  else
    match searchFrom pat text lastIndex with
    | some e => (true, e)
    | none => (false, 0)

/-- Character class of the email local part, source class A-Za-z0-9._%+- . -/
def emailLocalChar (c : Char) : Bool :=
  ('a' ≤ c && c ≤ 'z') || ('A' ≤ c && c ≤ 'Z') || ('0' ≤ c && c ≤ '9') ||
    c == '.' || c == '_' || c == '%' || c == '+' || c == '-'

/-- Character class of the email domain, source class A-Za-z0-9.- . -/
def emailDomainChar (c : Char) : Bool :=
  ('a' ≤ c && c ≤ 'z') || ('A' ≤ c && c ≤ 'Z') || ('0' ≤ c && c ≤ '9') ||
    c == '.' || c == '-'

/-- Character class of the email top-level part, source class A-Z|a-z, which
as written also admits the literal pipe character. -/
def emailTldChar (c : Char) : Bool :=
  ('a' ≤ c && c ≤ 'z') || ('A' ≤ c && c ≤ 'Z') || c == '|'

/-- ASCII digit class. -/
def digitChar (c : Char) : Bool :=
  '0' ≤ c && c ≤ '9'

/-- Source class -\s of the credit-card pattern: dash or JS whitespace (the
common whitespace characters suffice here). -/
def dashOrSpaceChar (c : Char) : Bool :=
  c == '-' || c == ' ' || c == '\t' || c == '\n' || c == '\r'

/-- A class repeated exactly n times. -/
def exactly (p : Char → Bool) (n : Nat) : RegexElem :=
  .cls p n (some n)

/-- A single literal character as a one-element class. -/
def litChar (c : Char) : RegexElem :=
  exactly (fun x => x == c) 1

/-- The email pattern of lib/ai.ts line 114. -/
def emailPattern : List RegexElem :=
  [.boundary, .cls emailLocalChar 1 none, litChar '@', .cls emailDomainChar 1 none,
   litChar '.', .cls emailTldChar 2 none, .boundary]

/-- The SSN pattern of lib/ai.ts line 115: three digits, dash, two digits,
dash, four digits, between word boundaries. -/
def ssnPattern : List RegexElem :=
  [.boundary, exactly digitChar 3, litChar '-', exactly digitChar 2,
   litChar '-', exactly digitChar 4, .boundary]

/-- The credit-card pattern of lib/ai.ts line 116: four groups of four
digits, optionally separated by a dash or space. -/
def cardPattern : List RegexElem :=
  [.boundary, exactly digitChar 4, .cls dashOrSpaceChar 0 (some 1),
   exactly digitChar 4, .cls dashOrSpaceChar 0 (some 1),
   exactly digitChar 4, .cls dashOrSpaceChar 0 (some 1),
   exactly digitChar 4, .boundary]

/-- The phone pattern of lib/ai.ts line 117: three digits, dash, three
digits, dash, four digits, between word boundaries. -/
def phonePattern : List RegexElem :=
  [.boundary, exactly digitChar 3, litChar '-', exactly digitChar 3,
   litChar '-', exactly digitChar 4, .boundary]

/-- The module-level PII_PATTERNS array, lib/ai.ts lines 113-118, in source
order: email, SSN, credit card, phone. -/
def PII_PATTERNS : List (List RegexElem) :=
  [emailPattern, ssnPattern, cardPattern, phonePattern]

/-- The mutable lastIndex values of the four module-level regex objects, in
the same order as PII_PATTERNS.  At module load every lastIndex is 0. -/
def initialPiiState : List Nat :=
  [0, 0, 0, 0]

/-- The PII loop of filterPolicy, lib/ai.ts lines 136-140: run test on each
pattern in order against the candidate text, threading each regex object's
lastIndex, and report which patterns matched together with the new lastIndex
values. -/
def runPiiTests : List (List RegexElem) → List Nat → List Char → List Bool × List Nat
  | [], _, _ => ([], [])
  | pat :: pats, sts, text =>
      let st := sts.headD 0
      let (hit, st1) := jsTestG pat text st
      let (hits, sts1) := runPiiTests pats sts.tail text
      (hit :: hits, st1 :: sts1)

/-- ASCII lowercasing of a string, the toLowerCase calls of lib/ai.ts,
applied characterwise. -/
def toLowerStr (s : String) : String :=
  String.mk (s.data.map Char.toLower)

/-- Whether the first list starts with the second one. -/
def startsWithList : List Char → List Char → Bool
  | _, [] => true
  | [], _ :: _ => false
  | h :: t, nh :: nt => h == nh && startsWithList t nt

/-- Substring containment on char lists, the String.prototype.includes calls
of lib/ai.ts. -/
def containsSub : List Char → List Char → Bool
  | hay, needle =>
    if startsWithList hay needle then true
    else
      match hay with
      | [] => false
      | _ :: t => containsSub t needle

/-- The BANNED_PHRASES list of lib/ai.ts lines 102-110 (the environment
override being absent, the defaults apply). -/
def BANNED_PHRASES : List String :=
  ["refund guaranteed", "always", "never", "free meal", "100% satisfaction",
   "perfect", "flawless"]

/-- The one violation message pushed per matching PII pattern, line 138. -/
def piiViolationMsg : String :=
  "Contains PII (email, phone, SSN, or credit card)"

/-- The violation message for one banned phrase, line 146. -/
def bannedViolationMsg (phrase : String) : String :=
  "Contains banned phrase: \"" ++ phrase ++ "\""

/-- The length violation message, line 152. -/
def lengthViolationMsg : String :=
  "Exceeds maximum length of 500 characters"

/-- The passed flag and ordered violations list returned by filterPolicy. -/
structure PolicyFilterResult where
  passed : Bool
  violations : List String
deriving DecidableEq, Repr

/-- filterPolicy, lib/ai.ts lines 132-159, together with the module regex
state it reads and writes: the PII loop pushes one violation per matching
pattern, then the banned-phrase loop pushes one violation per phrase the
lowercased text contains, then the length check pushes a violation when the
text exceeds 500 characters; passed holds when the list stayed empty.  The
second component is the module state after the call. -/
def filterPolicy (st : List Nat) (text : String) : PolicyFilterResult × List Nat :=
  let cs := text.data
  let (hits, st1) := runPiiTests PII_PATTERNS st cs
  let piiViolations := (hits.filter (fun b => b)).map (fun _ => piiViolationMsg)
  let lower := (toLowerStr text).data
  let bannedViolations :=
    (BANNED_PHRASES.filter (fun ph => containsSub lower (toLowerStr ph).data)).map
      bannedViolationMsg
  let lengthViolations := if text.length > 500 then [lengthViolationMsg] else []
  let violations := piiViolations ++ bannedViolations ++ lengthViolations
  ({ passed := violations.length == 0, violations := violations }, st1)

/-- The invariant on a reply row that the code maintains: a row in APPROVED
carries a finalText, and a row in SENT carries both a finalText and a
sentAt. -/
def replyFieldsInv (r : Reply) : Prop :=
  (r.status = .APPROVED → r.finalText.isSome = true) ∧
  (r.status = .SENT → r.finalText.isSome = true ∧ r.sentAt.isSome = true)

/- ## Theorems -/

/-- C1: the spec's reply state machine requires approve to succeed only from
DRAFT and send only from DRAFT or APPROVED, with SENT and FAILED terminal.
The code has no such guard: updateReplyAction inspects data.action only,
never the reply's current status.  Evaluated on a reply in the terminal
status SENT: approve succeeds and rewrites the status to APPROVED, and send
succeeds as well, posting to the platform again — where the claim says both
must be rejected without changing the reply's status. -/
theorem c1_terminal_status_not_guarded :
    (updateReplyAction "approve" none rSentExample .success "user-2" 2000).outcome
        = .approvedOk ∧
    (updateReplyAction "approve" none rSentExample .success "user-2" 2000).reply.status
        = .APPROVED ∧
    (updateReplyAction "send" none rSentExample .success "user-2" 2000).outcome
        = .sentOk ∧
    (updateReplyAction "send" none rSentExample .success "user-2" 2000).postedText
        = some "Thank you!" ∧
    rSentExample.status = .SENT := by
  decide

/-- C2 counterexample: the claim's precedence is caller-supplied text, then
the previously approved finalText, then the draft.  On a reply whose
approved finalText differs from its draft, a send without caller text posts
the draft, not the approved finalText, so the claim as stated is false at
this input. -/
theorem c2_draft_preempts_approved_text :
    (updateReplyAction "send" none rApprovedExample .success "u1" 7).postedText
        = some "draft text" ∧
    rApprovedExample.finalText = some "approved text" ∧
    some "draft text" ≠ rApprovedExample.finalText := by
  decide

/-- C2 amended: line 191 resolves the text as data.finalText, else the
stored draftText, else the previously approved finalText (the draft takes
precedence over the approved text); when all three are empty the send
returns NoTextToSend without invoking the adapter and without touching the
rows. -/
theorem c2_send_text_resolution (c : Option String) (r : Reply)
    (a : AdapterOutcome) (u : String) (t : Int) :
    (strTruthy c = true → (updateReplyAction "send" c r a u t).postedText = c) ∧
    (strTruthy c = false → r.draftText ≠ "" →
      (updateReplyAction "send" c r a u t).postedText = some r.draftText) ∧
    (strTruthy c = false → r.draftText = "" → strTruthy r.finalText = true →
      (updateReplyAction "send" c r a u t).postedText = r.finalText) ∧
    (strTruthy c = false → r.draftText = "" → strTruthy r.finalText = false →
      (updateReplyAction "send" c r a u t).outcome = .noText ∧
      (updateReplyAction "send" c r a u t).postedText = none ∧
      (updateReplyAction "send" c r a u t).reply = r ∧
      (updateReplyAction "send" c r a u t).reviewSetAutoSent = false) := by
  have hDraft : ∀ s : String, s ≠ "" → strTruthy (some s) = true := by
    intro s hs
    simp [strTruthy, hs]
  have hEmpty : strTruthy (some "") = false := by decide
  refine ⟨?_, ?_, ?_, ?_⟩
  · intro hc
    have hft : resolveSendText c r = c := by
      simp [resolveSendText, jsOrStr, hc]
    cases a <;> simp [updateReplyAction, hft, hc]
  · intro hc hd
    have hft : resolveSendText c r = some r.draftText := by
      simp [resolveSendText, jsOrStr, hc, hDraft r.draftText hd]
    cases a <;> simp [updateReplyAction, hft, hDraft r.draftText hd, hc]
  · intro hc hd hf
    have hft : resolveSendText c r = r.finalText := by
      simp [resolveSendText, jsOrStr, hc, hd, hEmpty]
    cases a <;> simp [updateReplyAction, hft, hf, hc]
  · intro hc hd hf
    have hft : resolveSendText c r = r.finalText := by
      simp [resolveSendText, jsOrStr, hc, hd, hEmpty]
    simp [updateReplyAction, hft, hf]

/-- C2 amended, witness: the four cases of the resolution instantiated on
concrete replies. -/
theorem c2_send_text_resolution_witness :
    (updateReplyAction "send" (some "edited") rApprovedExample .success "u1" 7).postedText
        = some "edited" ∧
    (updateReplyAction "send" none rApprovedExample .success "u1" 7).postedText
        = some "draft text" ∧
    (updateReplyAction "send" none
        { draftText := "", finalText := some "kept", status := .APPROVED
          sentById := none, sentAt := none } .success "u1" 7).postedText = some "kept" ∧
    (updateReplyAction "send" none
        { draftText := "", finalText := none, status := .DRAFT
          sentById := none, sentAt := none } .success "u1" 7).outcome = .noText := by
  refine ⟨?_, ?_, ?_, ?_⟩
  · exact (c2_send_text_resolution (some "edited") rApprovedExample .success "u1" 7).1 (by decide)
  · exact (c2_send_text_resolution none rApprovedExample .success "u1" 7).2.1 (by decide) (by decide)
  · exact (c2_send_text_resolution none
      { draftText := "", finalText := some "kept", status := .APPROVED
        sentById := none, sentAt := none } .success "u1" 7).2.2.1 (by decide) (by decide) (by decide)
  · exact ((c2_send_text_resolution none
      { draftText := "", finalText := none, status := .DRAFT
        sentById := none, sentAt := none } .success "u1" 7).2.2.2 (by decide) (by decide)
      (by decide)).1

/-- C6: when the adapter's postReply resolves false or rejects during a send
that reached the adapter (the resolved text being non-empty), the reply row
is set to FAILED, the parent review is not touched, and the outcome is the
recorded sendFailed response — the catch block of lines 259-272 turning a
thrown adapter error into the same FAILED outcome as a false return. -/
theorem c6_send_failure_recorded (c : Option String) (r : Reply) (u : String)
    (t : Int) (a : AdapterOutcome)
    (ha : a = .returnedFalse ∨ a = .threw)
    (hft : strTruthy (resolveSendText c r) = true) :
    (updateReplyAction "send" c r a u t).outcome = .sendFailed ∧
    (updateReplyAction "send" c r a u t).reply.status = .FAILED ∧
    (updateReplyAction "send" c r a u t).reviewSetAutoSent = false := by
  cases ha with
  | inl h => subst h; simp [updateReplyAction, hft]
  | inr h => subst h; simp [updateReplyAction, hft]

/-- C6 witness: a draft reply whose send sees the adapter return false. -/
theorem c6_send_failure_recorded_witness :
    (updateReplyAction "send" none rDraftExample .returnedFalse "u1" 5).outcome
        = .sendFailed ∧
    (updateReplyAction "send" none rDraftExample .returnedFalse "u1" 5).reply.status
        = .FAILED ∧
    (updateReplyAction "send" none rDraftExample .returnedFalse "u1" 5).reviewSetAutoSent
        = false :=
  c6_send_failure_recorded none rDraftExample "u1" 5 .returnedFalse (Or.inl rfl) (by decide)

theorem jsOrStr_some_isSome (a : Option String) (b : String) :
    (jsOrStr a (some b)).isSome = true := by
  cases a with
  | none => simp [jsOrStr, strTruthy]
  | some s => by_cases h : s = "" <;> simp [jsOrStr, strTruthy, h]

theorem isSome_of_strTruthy (o : Option String) (h : strTruthy o = true) :
    o.isSome = true := by
  cases o with
  | none => simp [strTruthy] at h
  | some s => rfl

theorem replyFieldsInv_step (r : Reply) (op : ReplyOp) (h : replyFieldsInv r) :
    replyFieldsInv (replyStep r op) := by
  cases op with
  | approve c =>
      refine ⟨fun _ => ?_, fun hs => ?_⟩
      · simpa [replyStep, updateReplyAction] using jsOrStr_some_isSome c r.draftText
      · simp [replyStep, updateReplyAction] at hs
  | send c a u t =>
      by_cases hft : strTruthy (resolveSendText c r) = true
      · cases a with
        | success =>
            refine ⟨fun ha => ?_, fun _ => ⟨?_, ?_⟩⟩
            · simp [replyStep, updateReplyAction, hft] at ha
            · simpa [replyStep, updateReplyAction, hft] using
                isSome_of_strTruthy _ hft
            · simp [replyStep, updateReplyAction, hft]
        | returnedFalse =>
            refine ⟨fun ha => ?_, fun hs => ?_⟩
            · simp [replyStep, updateReplyAction, hft] at ha
            · simp [replyStep, updateReplyAction, hft] at hs
        | threw =>
            refine ⟨fun ha => ?_, fun hs => ?_⟩
            · simp [replyStep, updateReplyAction, hft] at ha
            · simp [replyStep, updateReplyAction, hft] at hs
      · have hft0 : strTruthy (resolveSendText c r) = false := by
          simpa using hft
        simpa [replyStep, updateReplyAction, hft0] using h

theorem replyFieldsInv_runOps (r : Reply) (ops : List ReplyOp) (h : replyFieldsInv r) :
    replyFieldsInv (runOps r ops) := by
  induction ops generalizing r with
  | nil => simpa [runOps] using h
  | cons op ops ih =>
      exact ih (replyStep r op) (replyFieldsInv_step r op h)

/-- C8 counterexample: a generated draft sent once with the adapter
throwing ends in status FAILED after a send attempt with finalText still
unset, so the claimed direction that a FAILED-after-attempt row carries a
finalText is false at this input (the failure branches of lines 239-266
update the status column only). -/
theorem c8_failed_after_attempt_without_finalText :
    (runOps (generatedReply "We are sorry.") [.send none .threw "u1" 3]).status
        = .FAILED ∧
    (runOps (generatedReply "We are sorry.") [.send none .threw "u1" 3]).finalText
        = none := by
  decide

/-- C8 amended: after every sequence of orchestrator operations on a
generated reply, a row in status APPROVED or SENT carries a finalText, and a
row in status SENT carries a sentAt.  The converse directions of the claimed
iff fail: a FAILED row after a send attempt can lack a finalText, and since
no operation is status-guarded, an approve after a successful send leaves a
sentAt on a row that is no longer SENT. -/
theorem c8_reply_fields_invariant (draft : String) (ops : List ReplyOp) :
    ((runOps (generatedReply draft) ops).status = .APPROVED →
        (runOps (generatedReply draft) ops).finalText.isSome = true) ∧
    ((runOps (generatedReply draft) ops).status = .SENT →
        (runOps (generatedReply draft) ops).finalText.isSome = true ∧
        (runOps (generatedReply draft) ops).sentAt.isSome = true) :=
  replyFieldsInv_runOps (generatedReply draft) ops
    (by constructor <;> intro h <;> simp [generatedReply] at h)

/-- C8 amended, witness: an approve then a successful send on a concrete
draft reaches SENT with both fields set. -/
theorem c8_reply_fields_invariant_witness :
    (runOps (generatedReply "Thanks for visiting.")
        [.approve none, .send none .success "u1" 9]).finalText.isSome = true ∧
    (runOps (generatedReply "Thanks for visiting.")
        [.approve none, .send none .success "u1" 9]).sentAt.isSome = true :=
  (c8_reply_fields_invariant "Thanks for visiting."
      [.approve none, .send none .success "u1" 9]).2 (by decide)

/-- C9 counterexample: when the pre-insert lookup sees no reply but the
prisma.reply.create call then raises a uniqueness-constraint violation on
reviewId (the race the check-then-insert leaves open), generateReplyAction
does not catch it; the error reaches the generic handler of POST and the
caller receives 500, not the 409 ReplyAlreadyExists outcome the claim
requires. -/
theorem c9_insert_conflict_is_500 :
    postGenerateStatus true false true "We are sorry." = 500 ∧
    postGenerateStatus true false true "We are sorry." ≠ 409 := by
  decide

/-- C9 amended: only the pre-insert existence check yields the 409
ReplyAlreadyExists outcome; a uniqueness-constraint violation raised by the
insert itself propagates out of generateReplyAction as an unhandled error
and surfaces as the generic 500 response, while the conflict-free path
creates the DRAFT reply row with 200. -/
theorem c9_conflict_routing (v : Bool) (draft : String) :
    postGenerateStatus true true v draft = 409 ∧
    postGenerateStatus true false true draft = 500 ∧
    generateReplyAction true false true draft
        = .error "Unique constraint violation on Reply.reviewId" ∧
    postGenerateStatus true false false draft = 200 ∧
    generateReplyAction true false false draft
        = .ok (.created (generatedReply draft)) := by
  cases v <;>
    simp [postGenerateStatus, generateReplyAction]

/-- C9 amended, witness: the routing instantiated on a concrete draft. -/
theorem c9_conflict_routing_witness :
    postGenerateStatus true true true "Thanks!" = 409 ∧
    postGenerateStatus true false true "Thanks!" = 500 :=
  ⟨(c9_conflict_routing true "Thanks!").1, (c9_conflict_routing true "Thanks!").2.1⟩

theorem not_mem_key_of_count_zero (store : List ReviewRow) (pid : String)
    (h : countByPlatformId store pid = 0) :
    ∀ r ∈ store, (r.platformId == pid) = false := by
  intro r hr
  have hfil : store.filter (fun r => r.platformId == pid) = [] :=
    List.length_eq_zero.mp h
  have := List.filter_eq_nil_iff.mp hfil r hr
  simpa using this

theorem find?_isSome_of_mem (l : List ReviewRow) (p : ReviewRow → Bool)
    (r0 : ReviewRow) (h1 : r0 ∈ l) (h2 : p r0 = true) :
    (l.find? p).isSome = true := by
  induction l with
  | nil => simp at h1
  | cons a t ih =>
      rcases List.mem_cons.mp h1 with h | h
      · subst h; simp [List.find?_cons, h2]
      · cases hpa : p a with
        | true => simp [List.find?_cons, hpa]
        | false => simp [List.find?_cons, hpa, ih h]

theorem applySync_platformId (r : ReviewRow) (d : ReviewDraft) (now : Int) :
    (applySync r d now).platformId = r.platformId := by
  simp [applySync]

theorem countByPlatformId_map_update (store : List ReviewRow) (d : ReviewDraft)
    (now : Int) (pid : String) :
    countByPlatformId
        (store.map (fun r => if r.platformId == pid then applySync r d now else r)) pid
      = countByPlatformId store pid := by
  unfold countByPlatformId
  rw [← List.countP_eq_length_filter, ← List.countP_eq_length_filter, List.countP_map]
  apply List.countP_congr
  intro r _
  by_cases hk : (r.platformId == pid) = true
  · simp [Function.comp, hk, applySync_platformId]
  · have hk0 : (r.platformId == pid) = false := by simpa using hk
    simp [Function.comp, hk0]

theorem ingestReview_of_absent (store : List ReviewRow) (locId : String)
    (pf : ReviewPlatform) (d : ReviewDraft) (now : Int)
    (h : ∀ r ∈ store, (r.platformId == d.platformId) = false) :
    ingestReview store locId pf d now = store ++ [createRow locId pf d now] := by
  have hfind : store.find? (fun r => r.platformId == d.platformId) = none :=
    List.find?_eq_none.mpr (fun r hr => by simp [h r hr])
  simp [ingestReview, hfind]

theorem ingestReview_of_present (store : List ReviewRow) (locId : String)
    (pf : ReviewPlatform) (d : ReviewDraft) (now : Int)
    (h : (store.find? (fun r => r.platformId == d.platformId)).isSome = true) :
    ingestReview store locId pf d now
      = store.map (fun r => if r.platformId == d.platformId then applySync r d now else r) := by
  obtain ⟨x, hx⟩ := Option.isSome_iff_exists.mp h
  simp [ingestReview, hx]

theorem prismaSet_self (a : Option String) : prismaSet a a = a := by
  cases a <;> rfl

/-- C4: ingesting the same ReviewDraft twice into a store that does not yet
hold its key leaves exactly one row for that platformId — the second pass
takes the update branch, never a second insert — and that row's mutable
fields (stars, text, authorName, authorAvatar, url) are those of the second
ingestion, stamped with the second ingestion's updatedAt. -/
theorem c4_ingest_idempotent (store : List ReviewRow) (locId : String)
    (pf : ReviewPlatform) (d : ReviewDraft) (t1 t2 : Int)
    (hfresh : countByPlatformId store d.platformId = 0) :
    countByPlatformId
        (ingestReview (ingestReview store locId pf d t1) locId pf d t2) d.platformId = 1 ∧
    ∀ r ∈ ingestReview (ingestReview store locId pf d t1) locId pf d t2,
      r.platformId = d.platformId →
        r.stars = d.stars ∧ r.text = d.text ∧ r.authorName = d.authorName ∧
        r.authorAvatar = d.authorAvatar ∧ r.url = d.url ∧ r.updatedAt = t2 := by
  have hall : ∀ r ∈ store, (r.platformId == d.platformId) = false :=
    not_mem_key_of_count_zero store d.platformId hfresh
  have hnew : (createRow locId pf d t1).platformId == d.platformId := by
    simp [createRow]
  have h1 : ingestReview store locId pf d t1 = store ++ [createRow locId pf d t1] :=
    ingestReview_of_absent store locId pf d t1 hall
  have hfind1 : ((store ++ [createRow locId pf d t1]).find?
      (fun r => r.platformId == d.platformId)).isSome = true :=
    find?_isSome_of_mem _ _ (createRow locId pf d t1) (by simp) hnew
  have h2 : ingestReview (store ++ [createRow locId pf d t1]) locId pf d t2
      = (store ++ [createRow locId pf d t1]).map
          (fun r => if r.platformId == d.platformId then applySync r d t2 else r) :=
    ingestReview_of_present _ locId pf d t2 hfind1
  constructor
  · rw [h1, h2, countByPlatformId_map_update]
    simp only [countByPlatformId, List.filter_append, List.length_append]
    have : (store.filter (fun r => r.platformId == d.platformId)).length = 0 := hfresh
    simp [this, hnew]
  · intro r hr hpid
    rw [h1, h2] at hr
    obtain ⟨r0, hr0mem, hr0eq⟩ := List.mem_map.mp hr
    rcases List.mem_append.mp hr0mem with hin | hin
    · by_cases hk : (r0.platformId == d.platformId) = true
      · have := hall r0 hin
        rw [this] at hk
        exact absurd hk (by simp)
      · have hk0 : (r0.platformId == d.platformId) = false := by simpa using hk
        rw [← hr0eq] at hpid
        simp [hk0] at hpid
        exact absurd hpid (by simpa using hk0)
    · have : r0 = createRow locId pf d t1 := by simpa using hin
      subst this
      rw [← hr0eq]
      simp [hnew, applySync, createRow, prismaSet_self]

/-- C4 witness: the empty store ingesting a concrete draft twice. -/
theorem c4_ingest_idempotent_witness :
    countByPlatformId
        (ingestReview (ingestReview [] "loc-1" .GOOGLE dExample 10) "loc-1" .GOOGLE dExample 20)
        dExample.platformId = 1 ∧
    ∀ r ∈ ingestReview (ingestReview [] "loc-1" .GOOGLE dExample 10) "loc-1" .GOOGLE dExample 20,
      r.platformId = dExample.platformId →
        r.stars = dExample.stars ∧ r.text = dExample.text ∧
        r.authorName = dExample.authorName ∧ r.authorAvatar = dExample.authorAvatar ∧
        r.url = dExample.url ∧ r.updatedAt = 20 :=
  c4_ingest_idempotent [] "loc-1" .GOOGLE dExample 10 20 (by decide)

/-- C5: when the draft's key is already present, the run rewrites the store
row-for-row: every row keeps its status, createdAt, locationId, platform and
platformId; the row carrying the draft's platformId receives exactly the new
stars, text, authorName, authorAvatar, url (a field omitted from the draft
is left as stored, per the update-data semantics) and the new updatedAt; and
every other row is completely unchanged. -/
theorem c5_resync_frame (store : List ReviewRow) (locId : String)
    (pf : ReviewPlatform) (d : ReviewDraft) (now : Int) (r0 : ReviewRow)
    (h1 : r0 ∈ store) (h2 : r0.platformId = d.platformId) :
    List.Forall₂ (fun rOld rNew =>
        rNew.status = rOld.status ∧ rNew.createdAt = rOld.createdAt ∧
        rNew.locationId = rOld.locationId ∧ rNew.platform = rOld.platform ∧
        rNew.platformId = rOld.platformId ∧
        (rOld.platformId = d.platformId →
          rNew.stars = d.stars ∧ rNew.text = d.text ∧
          rNew.authorName = prismaSet d.authorName rOld.authorName ∧
          rNew.authorAvatar = prismaSet d.authorAvatar rOld.authorAvatar ∧
          rNew.url = prismaSet d.url rOld.url ∧ rNew.updatedAt = now) ∧
        (rOld.platformId ≠ d.platformId → rNew = rOld))
      store (ingestReview store locId pf d now) := by
  have hfind : (store.find? (fun r => r.platformId == d.platformId)).isSome = true :=
    find?_isSome_of_mem store _ r0 h1 (by simp [h2])
  rw [ingestReview_of_present store locId pf d now hfind]
  rw [List.forall₂_map_right_iff]
  rw [List.forall₂_same]
  intro r hr
  by_cases hk : r.platformId = d.platformId
  · simp [hk, applySync]
  · have hk0 : (r.platformId == d.platformId) = false := by simpa using hk
    simp [hk0, hk]

/-- C5 witness: re-syncing a one-row store with a fresh draft for the same
platformId. -/
theorem c5_resync_frame_witness :
    List.Forall₂ (fun rOld rNew =>
        rNew.status = rOld.status ∧ rNew.createdAt = rOld.createdAt ∧
        rNew.locationId = rOld.locationId ∧ rNew.platform = rOld.platform ∧
        rNew.platformId = rOld.platformId ∧
        (rOld.platformId = dExample2.platformId →
          rNew.stars = dExample2.stars ∧ rNew.text = dExample2.text ∧
          rNew.authorName = prismaSet dExample2.authorName rOld.authorName ∧
          rNew.authorAvatar = prismaSet dExample2.authorAvatar rOld.authorAvatar ∧
          rNew.url = prismaSet dExample2.url rOld.url ∧ rNew.updatedAt = 30) ∧
        (rOld.platformId ≠ dExample2.platformId → rNew = rOld))
      [rowYelpExample] (ingestReview [rowYelpExample] "loc-1" .GOOGLE dExample2 30) :=
  c5_resync_frame [rowYelpExample] "loc-1" .GOOGLE dExample2 30 rowYelpExample
    (by simp) (by decide)

/-- C10: presence is decided by platformId alone.  Whenever some store row
carries the draft's platformId — the hypothesis says nothing about its
platform, which may differ from the platform being ingested — the run takes
the update branch: the store's length and the number of rows holding that
platformId are unchanged (no second row is created), the store is rewritten
in place by the platformId-keyed update, and the update leaves every row's
platform column as it was. -/
theorem c10_presence_by_platformId_alone (store : List ReviewRow) (locId : String)
    (pf : ReviewPlatform) (d : ReviewDraft) (now : Int) (r0 : ReviewRow)
    (h1 : r0 ∈ store) (h2 : r0.platformId = d.platformId) :
    (ingestReview store locId pf d now).length = store.length ∧
    countByPlatformId (ingestReview store locId pf d now) d.platformId
        = countByPlatformId store d.platformId ∧
    ingestReview store locId pf d now
        = store.map (fun r => if r.platformId == d.platformId then applySync r d now else r) ∧
    ∀ r : ReviewRow, (applySync r d now).platform = r.platform := by
  have hfind : (store.find? (fun r => r.platformId == d.platformId)).isSome = true :=
    find?_isSome_of_mem store _ r0 h1 (by simp [h2])
  have hmap := ingestReview_of_present store locId pf d now hfind
  refine ⟨?_, ?_, hmap, ?_⟩
  · rw [hmap]; simp
  · rw [hmap]; exact countByPlatformId_map_update store d now d.platformId
  · intro r; simp [applySync]

/-- C10 witness: a GOOGLE draft whose platformId is already held by a YELP
row: the row is updated in place and keeps its YELP platform. -/
theorem c10_presence_by_platformId_alone_witness :
    (ingestReview [rowYelpExample] "loc-1" .GOOGLE dExample 10).length = 1 ∧
    countByPlatformId (ingestReview [rowYelpExample] "loc-1" .GOOGLE dExample 10)
        dExample.platformId = 1 ∧
    rowYelpExample.platform = .YELP ∧ rowYelpExample.platform ≠ .GOOGLE := by
  have h := c10_presence_by_platformId_alone [rowYelpExample] "loc-1" .GOOGLE dExample 10
    rowYelpExample (by simp) (by decide)
  refine ⟨h.1, ?_, by decide, by decide⟩
  rw [h.2.1]
  decide

theorem foldl_add_map_sum {α : Type} (f : α → ℚ) (l : List α) (a : ℚ) :
    l.foldl (fun acc x => acc + f x) a = a + (l.map f).sum := by
  induction l generalizing a with
  | nil => simp
  | cons h t ih => simp [ih, add_assoc]

/-- C7 counterexample: with the first of the month at time 0 and today being
the second day of the month (the interval from 86400000 to 172800000
milliseconds), a review created at time 0 — the previous day — is counted
into the snapshot keyed (businessId, today), while the claim's
current-day-only selection counts nothing: the query of metrics/route.ts
line 23 filters on the current month, not the current day. -/
theorem c7_counts_whole_month :
    (metricsJobBusiness [revFirstOfMonth] 0).totalReviews = 1 ∧
    revFirstOfMonth.createdAt < 86400000 ∧
    (computeMetrics (dayReviewsSpec [revFirstOfMonth] 86400000 172800000)).totalReviews
        = 0 := by
  decide

/-- C7 amended: the rollup aggregates exactly the reviews with createdAt at
or after the first of the current month (month-to-date), across the
business's locations: the selected set is characterized by that bound, and
over it the snapshot holds the count, the mean rating, and the percentage of
reviews with a SENT reply (with the zero defaults when the set is empty). -/
theorem c7_metrics_month_to_date (reviews : List MetricsReview) (monthStart : Int) :
    (∀ r : MetricsReview, r ∈ monthReviews reviews monthStart ↔
        (r ∈ reviews ∧ monthStart ≤ r.createdAt)) ∧
    (metricsJobBusiness reviews monthStart).totalReviews
        = reviews.countP (fun r => decide (monthStart ≤ r.createdAt)) ∧
    ((monthReviews reviews monthStart).length ≠ 0 →
      (metricsJobBusiness reviews monthStart).avgRating
          = ((monthReviews reviews monthStart).map (fun r => (r.stars : ℚ))).sum
              / ((monthReviews reviews monthStart).length : ℚ) ∧
      (metricsJobBusiness reviews monthStart).coverage
          = (((monthReviews reviews monthStart).filter hasSentReply).length : ℚ)
              / ((monthReviews reviews monthStart).length : ℚ) * 100) ∧
    ((monthReviews reviews monthStart).length = 0 →
      (metricsJobBusiness reviews monthStart).avgRating = 0 ∧
      (metricsJobBusiness reviews monthStart).coverage = 0) := by
  refine ⟨?_, ?_, ?_, ?_⟩
  · intro r
    simp [monthReviews, List.mem_filter]
  · simp [metricsJobBusiness, computeMetrics, monthReviews,
      List.countP_eq_length_filter]
  · intro hne
    have hpos : 0 < (monthReviews reviews monthStart).length :=
      Nat.pos_of_ne_zero hne
    constructor
    · simp [metricsJobBusiness, computeMetrics, hpos,
        foldl_add_map_sum (fun r : MetricsReview => (r.stars : ℚ))]
    · simp [metricsJobBusiness, computeMetrics, hpos]
  · intro hz
    constructor
    · simp [metricsJobBusiness, computeMetrics, hz]
    · simp [metricsJobBusiness, computeMetrics, hz]

/-- C7 amended, witness: the spec's worked example of four month-to-date
reviews with ratings 5, 3, 1, 4 of which two carry SENT replies; the
aggregation formulas instantiate and give mean 13/4 and coverage 50. -/
theorem c7_metrics_month_to_date_witness :
    (metricsJobBusiness ms4Example 0).avgRating
        = ((monthReviews ms4Example 0).map (fun r => (r.stars : ℚ))).sum
            / ((monthReviews ms4Example 0).length : ℚ) ∧
    (metricsJobBusiness ms4Example 0).coverage
        = (((monthReviews ms4Example 0).filter hasSentReply).length : ℚ)
            / ((monthReviews ms4Example 0).length : ℚ) * 100 ∧
    (metricsJobBusiness ms4Example 0).avgRating = 13 / 4 ∧
    (metricsJobBusiness ms4Example 0).coverage = 50 := by
  have h := (c7_metrics_month_to_date ms4Example 0).2.2.1 (by decide)
  refine ⟨h.1, h.2, ?_, ?_⟩
  · rw [h.1]
    norm_num [monthReviews, ms4Example]
  · rw [h.2]
    have hds : (ReplyStatus.DRAFT == ReplyStatus.SENT) = false := by decide
    norm_num [monthReviews, ms4Example, hasSentReply, List.filter, hds]

/-- C3: filterPolicy is not deterministic across calls, because the four PII
patterns of lib/ai.ts lines 113-118 are module-level RegExp objects with the
g flag and line 137 calls test on them: a successful test leaves the regex
object's lastIndex at the match end.  On the spec's own PII example text,
the first call reports the PII violation and moves the email regex's
lastIndex to 21; the immediately following call on the identical text
resumes the search there, finds nothing, and returns passed with no
violations — the two consecutive calls disagree in both components. -/
theorem c3_filterPolicy_not_deterministic :
    (filterPolicy initialPiiState "contact me at a@b.com").1
        = { passed := false, violations := [piiViolationMsg] } ∧
    (filterPolicy initialPiiState "contact me at a@b.com").2 = [21, 0, 0, 0] ∧
    (filterPolicy (filterPolicy initialPiiState "contact me at a@b.com").2
        "contact me at a@b.com").1
        = { passed := true, violations := [] } ∧
    (filterPolicy initialPiiState "contact me at a@b.com").1
        ≠ (filterPolicy (filterPolicy initialPiiState "contact me at a@b.com").2
            "contact me at a@b.com").1 := by
  decide
